import Mathlib

/-!
Verification of the HOA document-analysis agent (`src/main.py`).

The script drives an external question-answering service over a staged
document corpus.  The parts with real logic — the per-question answer
extraction (`ask_question`), the sequential batch driver (`ask_questions`),
the temporary-file upload loop (`upload_files_to_vector_store`) and the
category-ordered aggregation (`create_summary_table`) — are embedded below
as pure Lean functions.  CPython strings are sequences of Unicode code
points and are modelled as `List Char`; the external service's behaviour
(run outcome, response text, citation annotations) is an explicit input.
-/

set_option maxRecDepth 100000

namespace HoaAgent

/-- A Python string: its sequence of Unicode code points (CPython `str`
indexes, slices and matches by code point). -/
abbrev PyStr := List Char

/-- Code points of a Lean string literal; used to transcribe the Python
string literals of the source. -/
def pys (s : String) : PyStr := s.data

/-- Whitespace test of Python `str.strip()` (the ASCII whitespace class;
the extra Unicode spaces Python also strips never occur in this program's
fixed literals). -/
def pyIsSpace (c : Char) : Bool :=
  c == ' ' || c == '\t' || c == '\n' || c == '\r' ||
  c == Char.ofNat 11 || c == Char.ofNat 12

/-- Python `s.strip()`: drop leading and trailing whitespace. -/
def pyStrip (s : PyStr) : PyStr :=
  ((s.dropWhile pyIsSpace).reverse.dropWhile pyIsSpace).reverse

/-- Python `pat in s` on strings: `pat` occurs as a contiguous substring. -/
def containsSub (pat : PyStr) : PyStr → Bool
  | [] => pat.isEmpty
  | c :: rest => pat.isPrefixOf (c :: rest) || containsSub pat rest

/-- Core of Python `str.split(sep)`: scan left to right, cutting at each
non-overlapping occurrence of `sep`.  The recursion is structural on a
fuel argument so that it reduces inside the kernel; every step consumes
at least one code point of the scanned suffix, so fuel equal to the
string's length (as supplied by `pySplitOn`) is never exhausted for the
non-empty separators this program uses. -/
def splitOnFuel (sep : PyStr) : Nat → PyStr → List PyStr
  | _, [] => [[]]
  | 0, s => [s]
  | fuel + 1, c :: rest =>
    if sep.isPrefixOf (c :: rest) then
      [] :: splitOnFuel sep fuel ((c :: rest).drop sep.length)
    else
      match splitOnFuel sep fuel rest with
      | [] => [[c]]
      | part :: more => (c :: part) :: more

/-- Python `s.split(sep)`.  The program only ever splits on the literal
`"SUMMARY:"`. -/
def pySplitOn (sep s : PyStr) : List PyStr :=
  splitOnFuel sep s.length s

/-- Core of Python `str.replace(pat, repl)`: replace every non-overlapping
occurrence, left to right, with the same fuel discipline as
`splitOnFuel`. -/
def replaceFuel (pat repl : PyStr) : Nat → PyStr → PyStr
  | _, [] => []
  | 0, s => s
  | fuel + 1, c :: rest =>
    if pat.isPrefixOf (c :: rest) then
      repl ++ replaceFuel pat repl fuel ((c :: rest).drop pat.length)
    else
      c :: replaceFuel pat repl fuel rest

/-- Python `s.replace(pat, repl)`.  The program only ever strips the
literal label `"DETAILED ANSWER:"`. -/
def pyReplace (pat repl s : PyStr) : PyStr :=
  replaceFuel pat repl s.length s

/-! ## Configuration constants of `src/main.py` -/

/-- `MAX_RETRIES = 3  # Number of retries for API calls` (src/main.py line 31). -/
def MAX_RETRIES : Nat := 3

/-- `RETRY_DELAY = 5  # Delay (in seconds) between retries` (src/main.py line 32). -/
def RETRY_DELAY : Nat := 5

/-- The 20 extraction questions, transcribed code-point-exactly from
`EXTRACTION_QUESTIONS` in src/main.py (including the mojibake sequence
in question 14). -/
def EXTRACTION_QUESTIONS : List String := [
  "What is the official name of the homeowners association as indicated in the documents? (If multiple sources mention the name, use the information from the highest-ranked document.)",
  "What details are provided about the monthly dues (amounts, payment schedule, and any related conditions)? (Prioritize details from the highest-ranking file available, and note if the dues are aggregate or per property.)",
  "What information is available regarding fee increases and special assessments, including any criteria, frequency, or conditions under which they occur? (Reference the highest-priority document if multiple files address these topics.)",
  "How is the overall financial health of the HOA described, including any metrics, ratings, or commentary on fiscal stability? (Use details from the document highest in the ranking order when available.)",
  "What details are offered about the reserve fund (such as its balance, purpose, and allocation policies)? (If several documents provide this information, select details from the top-ranked source.)",
  "How is the HOA budget allocated among various expense categories, and what insights or breakdowns are provided? (Use the highest-authority source available.)",
  "What does the documentation reveal about the reputation of the management team (including performance, responsiveness, or community feedback)? (Reference the highest-priority document when multiple documents mention management reputation.)",
  "What issues or complaints have been documented, and what information is provided on how they were handled or resolved? (If details come from various sources, follow the ranking order to determine the authoritative source.)",
  "What specific rules and restrictions govern the community, and how are these policies structured or enforced? (Use the highest-ranked document addressing rules and restrictions.)",
  "What policies are in place regarding pets (e.g., permitted types, restrictions, approval processes, or limits)? (If multiple documents include pet policies, prioritize according to the given ranking order.)",
  "What information is provided about short-term rental policies, including any limitations or guidelines? (Refer to the highest-authority document if several files discuss this topic.)",
  "What details are included regarding capital improvements (such as planned projects, recent upgrades, or funding for improvements)? (Prioritize information from the document highest in the provided list.)",
  "How are the community amenities and overall property condition described in the documents? (Use the details from the top-ranked document available on amenities and conditions.)",
  "What information is available on the HOAâ€™s governance practices and transparency, including decision-making processes and access to records? (If multiple documents offer insights, choose the details from the highest-authority file.)",
  "What enforcement measures and fine structures are documented for policy violations, and what are the associated procedures? (When conflicting information exists, refer to the highest-priority source such as Fine Schedule or Assessment Enforcement.)",
  "How does the HOA address routine maintenance and emergency situations, including any protocols or response plans? (Use the highest-ranked document that discusses maintenance and emergencies.)",
  "What processes are outlined for resolving disputes among residents or between residents and management? (If details are provided in several documents, prioritize using the ranking order.)",
  "What details are provided on insurance policies and service coverage, including scope, limitations, and any notable exclusions? (Use the highest-authority document among those addressing insurance, e.g., Insurance & Evidence of Insurance (COI) or Flood & General Liability Insurance.)",
  "What legal or regulatory issues have been identified, and how does the HOA address or mitigate these challenges? (Prioritize details from the highest-ranked document that discusses legal or regulatory matters.)",
  "What evidence or information is provided about resident engagement, involvement, or feedback within the community? (If multiple sources offer information on resident engagement, use the details from the highest-ranked document.)"
]

/-- The extraction questions as Python strings (code-point sequences). -/
def questionChars : List PyStr := EXTRACTION_QUESTIONS.map String.data

/-- The hard-coded category list local to `create_summary_table`
(src/main.py lines 413-419). -/
def categories : List String := [
  "HOA Name",
  "Monthly Dues", "Fee Increases", "Financial Health", "Reserve Fund",
  "HOA Budget Allocation", "Management Reputation", "Documented Issues",
  "Community Rules", "Pet Policies",
  "Short-Term Rentals", "Capital Improvements", "Community Amenities",
  "Governance Practices", "Enforcement Measures",
  "Routine Maintenance", "Dispute Resolution", "Insurance Policies",
  "Legal Issues", "Resident Engagement"
]

/-- The category labels as Python strings. -/
def categoryChars : List PyStr := categories.map String.data

/-! ## The per-question answer extraction (`ask_question`) -/

/-- The dictionary `ask_question` returns (src/main.py lines 367-373,
376-382 and 388-394): question text, detailed answer, short summary, the
joined source names, and the raw citation annotation objects (each
modelled by its serialized text). -/
structure AnswerRecord where
  question : PyStr
  answer : PyStr
  summary : PyStr
  source : PyStr
  source_citations : List PyStr
deriving DecidableEq

/-- Record with empty fields, used as the default of list lookups. -/
def defaultRecord : AnswerRecord :=
  { question := [], answer := [], summary := [], source := [], source_citations := [] }

/-- The outcome of one attempt to submit and poll a run, as observed by
`ask_question`'s single `try` block: either the polling loop reaches
status `completed` (yielding the newest assistant message's text together
with its file-citation annotations, each a pair of resolved filename and
raw annotation object), or it reaches one of the in-band terminal
statuses `failed`/`cancelled`/`expired`, or some API call raises an
exception carrying a message string. -/
inductive RunOutcome where
  | completedRun (response : PyStr) (cites : List (PyStr × PyStr))
  | terminalStatus (status : PyStr)
  | exn (message : PyStr)
deriving DecidableEq

/-- `ask_question` (src/main.py lines 302-394) as a function of the run
outcome.  On `completed` it splits the response on `"SUMMARY:"`, strips
the `"DETAILED ANSWER:"` label from the part before the delimiter, and
falls back to the first 200 code points of the detailed answer when the
delimiter is absent; Python's unordered `set(sources)` join is modelled
as a first-occurrence deduplication.  An in-band terminal status or an
exception yields the corresponding sentinel record. -/
def ask_question (question : PyStr) (outcome : RunOutcome) : AnswerRecord :=
  match outcome with
  | .completedRun response cites =>
    let sources : List PyStr := cites.map Prod.fst
    let source_citations : List PyStr := cites.map Prod.snd
    let parts := pySplitOn (pys "SUMMARY:") response
    let detailed := pyStrip (pyReplace (pys "DETAILED ANSWER:") [] (parts.headD []))
    let summary : PyStr :=
      match parts with
      | _ :: second :: _ => pyStrip second
      | _ => detailed.take 200
    { question := question, answer := detailed, summary := summary,
      source := if sources.isEmpty then pys "No specific sources cited"
                else List.intercalate (pys ", ") sources.dedup,
      source_citations := source_citations }
  | .terminalStatus status =>
    { question := question, answer := pys "Search failed: " ++ status,
      summary := pys "Document search error",
      source := pys "N/A", source_citations := [] }
  | .exn message =>
    { question := question, answer := message,
      summary := pys "Processing error",
      source := pys "N/A", source_citations := [] }

/-- `ask_question` together with the number of submit/poll attempts it
makes.  The source's single `try` block consults the environment exactly
once — there is no retry loop around it — so the attempt count is 1 for
every oracle (the oracle's value at indices ≥ 1, the outcomes later
attempts would observe, is never consulted). -/
def ask_question_attempts (question : PyStr) (oracle : Nat → RunOutcome) :
    AnswerRecord × Nat :=
  (ask_question question (oracle 0), 1)

/-- `ask_questions` (src/main.py lines 396-406): process the questions
strictly in order, one run outcome per question; the inter-question
`time.sleep(2)` has no effect on the returned data. -/
def ask_questions (questions : List PyStr) (oracle : Nat → RunOutcome) :
    List AnswerRecord :=
  questions.enum.map (fun p => ask_question p.2 (oracle p.1))

/-! ## The aggregation (`create_summary_table`) -/

/-- The `"Source"` field of a summary row is heterogeneous in the source:
the raw citation list on a match, the literal string `"N/A"` on a miss. -/
inductive SourceField where
  | citations (cites : List PyStr)
  | nA
deriving DecidableEq

/-- One row of the JSON summary table. -/
structure SummaryEntry where
  Category : PyStr
  Findings : PyStr
  Source : SourceField
deriving DecidableEq

/-- Entry with empty fields, used as the default of list lookups. -/
def defaultEntry : SummaryEntry :=
  { Category := [], Findings := [], Source := .nA }

/-- The body of `create_summary_table`'s loop (src/main.py lines 421-431):
select the first response whose question starts with the first 50 code
points of `questions[i]`; on a match emit its summary and raw citations,
otherwise the fixed placeholder row. -/
def summary_row (questions : List PyStr) (responses : List AnswerRecord)
    (category : PyStr) (i : Nat) : SummaryEntry :=
  match responses.find?
      (fun r => ((questions.getD i []).take 50).isPrefixOf r.question) with
  | some response =>
    { Category := category, Findings := response.summary,
      Source := .citations response.source_citations }
  | none =>
    { Category := category, Findings := pys "No information found.",
      Source := .nA }

/-- `create_summary_table`'s loop with its two fixed lists (the local
`categories` literal and the module-level `EXTRACTION_QUESTIONS`) made
explicit parameters; `enumerate(categories)` becomes a map over the index
range.  The `fid_to_fpath` argument is accepted, as in the source, and
never read. -/
def create_summary_table_gen (cats questions : List PyStr)
    (fid_to_fpath : List (PyStr × PyStr)) (responses : List AnswerRecord) :
    List SummaryEntry :=
  (List.range cats.length).map
    (fun i => summary_row questions responses (cats.getD i []) i)

/-- `create_summary_table` (src/main.py lines 410-433): the loop above
instantiated at the source's two fixed 20-element lists. -/
def create_summary_table (fid_to_fpath : List (PyStr × PyStr))
    (responses : List AnswerRecord) : List SummaryEntry :=
  create_summary_table_gen categoryChars questionChars fid_to_fpath responses

/-! ## The upload loop (`upload_files_to_vector_store`) -/

/-- How far one document's iteration of the upload loop gets before an
exception, if any (src/main.py lines 237-254).  `writeRaises`: the
`NamedTemporaryFile` has been created on disk (with `delete=False`) but
`temp_file.write(...)` — e.g. the `.encode('utf-8')` of its argument —
raises before `temp_file_path` is assigned.  `uploadRaises`:
`client.files.create` raises after the temporary file was written and
`temp_file_path` assigned.  `ok`: the whole body succeeds. -/
inductive UploadBehavior where
  | ok
  | writeRaises
  | uploadRaises
deriving DecidableEq

/-- Observable state of the upload loop: the temporary files currently on
disk (named by document index), the Python local `temp_file_path`
(which persists across loop iterations), the documents whose upload call
succeeded, and whether an exception escaped a `finally` block — which
aborts the whole function, skipping all remaining documents. -/
structure UploadState where
  disk : List Nat
  tempVar : Option Nat
  uploaded : List Nat
  crashed : Bool
deriving DecidableEq

/-- The `try` body of one iteration for document `i`: the temporary file
is created on disk in every case; `temp_file_path` is (re)assigned and
the upload recorded only for the phases actually reached. -/
def try_body (st : UploadState) (i : Nat) (b : UploadBehavior) : UploadState :=
  match b with
  | .writeRaises => { st with disk := st.disk ++ [i] }
  | .uploadRaises => { st with disk := st.disk ++ [i], tempVar := some i }
  | .ok =>
    { st with disk := st.disk ++ [i], tempVar := some i, uploaded := st.uploaded ++ [i] }

/-- The `finally` block: `if 'temp_file_path' in locals(): os.remove(...)`.
If `temp_file_path` was never assigned (first iteration) nothing is
removed; if it holds a path no longer on disk — the stale value of an
earlier iteration whose file was already removed — `os.remove` raises
`FileNotFoundError`, which escapes the `finally` and aborts the loop. -/
def run_finally (st : UploadState) : UploadState :=
  match st.tempVar with
  | none => st
  | some p =>
    if p ∈ st.disk then { st with disk := st.disk.erase p }
    else { st with crashed := true }

/-- One iteration of the upload loop (no-op once an earlier `finally`
crashed the function). -/
def process_document (st : UploadState) (doc : Nat × UploadBehavior) :
    UploadState :=
  if st.crashed then st else run_finally (try_body st doc.1 doc.2)

/-- The per-document loop of `upload_files_to_vector_store`
(src/main.py lines 237-254), folded over the documents in order from the
initial state (empty disk, `temp_file_path` unassigned). -/
def upload_files_to_vector_store (docs : List (Nat × UploadBehavior)) :
    UploadState :=
  docs.foldl process_document
    { disk := [], tempVar := none, uploaded := [], crashed := false }

/-! ## Helper lemmas -/

/-- Element `i` of a map over `List.range n`. -/
theorem getD_range_map {α : Type} (f : Nat → α) (n i : Nat) (hi : i < n) (d : α) :
    ((List.range n).map f).getD i d = f i := by
  simp [List.getD_eq_getElem?_getD, List.getElem?_map, List.getElem?_range, hi]

/-- `find?` returns the first element satisfying the predicate: everything
before it fails, the element itself passes, the tail is irrelevant. -/
theorem find?_of_first {α : Type} (p : α → Bool) (l1 l2 : List α) (r : α)
    (h1 : ∀ x ∈ l1, p x = false) (hr : p r = true) :
    (l1 ++ r :: l2).find? p = some r := by
  induction l1 with
  | nil => simp [List.find?_cons_of_pos, hr]
  | cons a t ih =>
    have ha : p a = false := h1 a (by simp)
    rw [List.cons_append, List.find?_cons_of_neg _ (by simp [ha])]
    exact ih (fun x hx => h1 x (by simp [hx]))

/-- `find?` in index form: if the first `i` elements fail the predicate and
element `i` passes it, `find?` returns element `i`. -/
theorem find?_of_getD {α : Type} (p : α → Bool) (d : α) :
    ∀ (l : List α) (i : Nat), i < l.length →
      (∀ j, j < i → p (l.getD j d) = false) → p (l.getD i d) = true →
      l.find? p = some (l.getD i d) := by
  intro l
  induction l with
  | nil => intro i hi; simp at hi
  | cons a t ih =>
    intro i hi hlt hp
    cases i with
    | zero =>
      rw [List.getD_cons_zero] at hp ⊢
      exact List.find?_cons_of_pos _ hp
    | succ k =>
      have ha : p a = false := by
        have h0 := hlt 0 (Nat.succ_pos k)
        rwa [List.getD_cons_zero] at h0
      rw [List.getD_cons_succ, List.find?_cons_of_neg _ (by simp [ha])]
      refine ih k (by simpa using hi) ?_ (by rwa [List.getD_cons_succ] at hp)
      intro j hj
      have := hlt (j + 1) (by omega)
      rwa [List.getD_cons_succ] at this

/-- If the separator never occurs in the string, the split is the whole
string as a single part (for any sufficient fuel). -/
theorem splitOnFuel_of_not_contains (sep : PyStr) :
    ∀ (fuel : Nat) (s : PyStr), containsSub sep s = false → s.length ≤ fuel →
      splitOnFuel sep fuel s = [s] := by
  intro fuel
  induction fuel with
  | zero =>
    intro s h hle
    cases s with
    | nil => rfl
    | cons c rest => simp at hle
  | succ n ih =>
    intro s h hle
    cases s with
    | nil => rfl
    | cons c rest =>
      rw [containsSub, Bool.or_eq_false_iff] at h
      have hrest : splitOnFuel sep n rest = [rest] :=
        ih rest h.2 (by simpa using Nat.le_of_succ_le_succ (by simpa using hle))
      simp [splitOnFuel, h.1, hrest]

/-! ## The claims -/

/-- C1: `create_summary_table` returns exactly one entry per category, in
the original order of the fixed 20-element category list, and a category
with no matching answer record yields the placeholder entry with finding
"No information found." and source "N/A" rather than being omitted. -/
theorem claim1_summary_shape (m : List (PyStr × PyStr)) (rs : List AnswerRecord) :
    categories.length = 20 ∧
    (create_summary_table m rs).length = 20 ∧
    ∀ i, i < 20 →
      ((create_summary_table m rs).getD i defaultEntry).Category = categoryChars.getD i [] ∧
      (rs.find? (fun r => ((questionChars.getD i []).take 50).isPrefixOf r.question) = none →
        (create_summary_table m rs).getD i defaultEntry =
          { Category := categoryChars.getD i [],
            Findings := pys "No information found.", Source := .nA }) := by
  refine ⟨rfl, by simp [create_summary_table, create_summary_table_gen, categoryChars,
    categories], ?_⟩
  intro i hi
  have hrow : (create_summary_table m rs).getD i defaultEntry
      = summary_row questionChars rs (categoryChars.getD i []) i := by
    unfold create_summary_table create_summary_table_gen
    exact getD_range_map _ _ _ (by simpa [categoryChars, categories] using hi) _
  rw [hrow]
  unfold summary_row
  constructor
  · cases h : rs.find? (fun r => ((questionChars.getD i []).take 50).isPrefixOf r.question) <;>
      simp [h]
  · intro hnone
    rw [hnone]

/-- C1 witness: on the empty response list, category 0 of the summary table
is the placeholder entry. -/
theorem claim1_witness :
    (0 : Nat) < 20 ∧
    (create_summary_table [] []).getD 0 defaultEntry =
      { Category := categoryChars.getD 0 [],
        Findings := pys "No information found.", Source := SourceField.nA } :=
  ⟨by decide, ((claim1_summary_shape [] []).2.2 0 (by decide)).2 rfl⟩

/-- C3: for a completed run whose response does not contain the delimiter
"SUMMARY:", the summary field of the returned record is, verbatim, the
first 200 code points of the record's detailed-answer field (the response
with the "DETAILED ANSWER:" label stripped). -/
theorem claim3_fallback_summary (q resp : PyStr) (cites : List (PyStr × PyStr))
    (h : containsSub (pys "SUMMARY:") resp = false) :
    (ask_question q (.completedRun resp cites)).summary =
      ((ask_question q (.completedRun resp cites)).answer).take 200 := by
  have hsplit : pySplitOn (pys "SUMMARY:") resp = [resp] :=
    splitOnFuel_of_not_contains _ _ _ h (Nat.le_refl _)
  simp only [ask_question, hsplit]

/-- C3 witness: a 363-code-point response without the delimiter, whose
summary is the 200-code-point truncation of the stripped detailed text. -/
def fallbackResp : PyStr :=
  pys "DETAILED ANSWER: The reserve fund balance is reported at 425000 dollars, earmarked for roof replacement, road resurfacing and clubhouse repairs; allocation policy directs 12 percent of monthly dues to reserves, with an additional special transfer authorized by the board whenever the funded ratio falls below 60 percent of the most recent reserve study target."

theorem claim3_witness :
    containsSub (pys "SUMMARY:") fallbackResp = false ∧
    (ask_question (pys "Q") (.completedRun fallbackResp [])).summary =
      ((ask_question (pys "Q") (.completedRun fallbackResp [])).answer).take 200 :=
  ⟨by decide, claim3_fallback_summary _ _ _ (by decide)⟩

/-- C10: the `fid_to_fpath` argument of `create_summary_table` is dead at
the public interface — the result depends only on the response list. -/
theorem claim10_dead_registry (m1 m2 : List (PyStr × PyStr)) (rs : List AnswerRecord) :
    create_summary_table m1 rs = create_summary_table m2 rs := rfl

/-- C4: for category `i`, `create_summary_table` selects the first record
in the response list whose question literally starts with the first 50
code points of `EXTRACTION_QUESTIONS[i]`, even if the remainder of the
question text differs: records before it that fail the test are skipped
and the records after it are ignored. -/
theorem claim4_first_match_selected (m : List (PyStr × PyStr))
    (rs1 rs2 : List AnswerRecord) (r : AnswerRecord) (i : Nat) (hi : i < 20)
    (hmiss : ∀ x ∈ rs1, ((questionChars.getD i []).take 50).isPrefixOf x.question = false)
    (hhit : ((questionChars.getD i []).take 50).isPrefixOf r.question = true) :
    (create_summary_table m (rs1 ++ r :: rs2)).getD i defaultEntry =
      { Category := categoryChars.getD i [], Findings := r.summary,
        Source := .citations r.source_citations } := by
  have hrow : (create_summary_table m (rs1 ++ r :: rs2)).getD i defaultEntry
      = summary_row questionChars (rs1 ++ r :: rs2) (categoryChars.getD i []) i := by
    unfold create_summary_table create_summary_table_gen
    exact getD_range_map _ _ _ (by simpa [categoryChars, categories] using hi) _
  rw [hrow]
  unfold summary_row
  rw [find?_of_first _ rs1 rs2 r hmiss hhit]

/-- C4 witness: a record whose question is the 50-code-point stem of
question 0 with an edited tail is selected for category 0 even though a
non-matching record sits in front of it and another record follows. -/
def editedTailRecord : AnswerRecord :=
  { question := (questionChars.getD 0 []).take 50 ++ pys " EDITED TAIL OF THE QUESTION",
    answer := pys "A", summary := pys "name summary", source := pys "S",
    source_citations := [pys "cite0"] }

def unrelatedRecord : AnswerRecord :=
  { question := pys "An unrelated question", answer := pys "B",
    summary := pys "other summary", source := pys "S2", source_citations := [] }

theorem claim4_witness :
    (create_summary_table [] ([unrelatedRecord] ++ editedTailRecord :: [unrelatedRecord])).getD 0
        defaultEntry =
      { Category := categoryChars.getD 0 [], Findings := editedTailRecord.summary,
        Source := .citations editedTailRecord.source_citations } :=
  claim4_first_match_selected [] [unrelatedRecord] [unrelatedRecord] editedTailRecord 0
    (by decide) (by decide) (by decide)

/-- C5: when the polled run reaches an in-band terminal status `failed`,
`cancelled` or `expired`, `ask_question` makes no further attempt (the
attempt count is 1 and outcomes of later attempts are never consulted)
and immediately returns the sentinel record whose answer embeds the
status name. -/
theorem claim5_terminal_no_retry (q s : PyStr) (oracle : Nat → RunOutcome)
    (hs : s = pys "failed" ∨ s = pys "cancelled" ∨ s = pys "expired")
    (h0 : oracle 0 = .terminalStatus s) :
    ask_question_attempts q oracle =
      ({ question := q, answer := pys "Search failed: " ++ s,
         summary := pys "Document search error", source := pys "N/A",
         source_citations := [] }, 1) := by
  unfold ask_question_attempts
  rw [h0]
  rfl

/-- C5 witness: a run that polls to status `failed` yields the sentinel
record at once. -/
theorem claim5_witness :
    ask_question_attempts (pys "Q") (fun _ => .terminalStatus (pys "failed")) =
      ({ question := pys "Q", answer := pys "Search failed: " ++ pys "failed",
         summary := pys "Document search error", source := pys "N/A",
         source_citations := [] }, 1) :=
  claim5_terminal_no_retry (pys "Q") (pys "failed") _ (Or.inl rfl) rfl

/-- C7 counterexample: the exception-path sentinel copies the exception's
message into the answer field verbatim, so an exception whose message is
empty (Python `str(Exception())` is `""`) produces a sentinel record with
an EMPTY answer field — the claim's "non-empty answer field describing
the failure class" fails on it, while source and citations are the
placeholder values. -/
theorem claim7_counterexample :
    (ask_question (pys "Q") (.exn [])).answer = [] ∧
    (ask_question (pys "Q") (.exn [])).summary = pys "Processing error" ∧
    (ask_question (pys "Q") (.exn [])).source = pys "N/A" ∧
    (ask_question (pys "Q") (.exn [])).source_citations = [] := by decide

/-- C7 as amended: every sentinel record has the placeholder source "N/A",
an empty citation list and a non-empty summary naming the failure class;
the answer field is non-empty for in-band terminal statuses, and on the
exception path it is the exception's message, hence non-empty whenever
that message is non-empty. -/
theorem claim7_sentinel_fields (q s msg : PyStr)
    (hs : s = pys "failed" ∨ s = pys "cancelled" ∨ s = pys "expired")
    (hmsg : msg ≠ []) :
    ((ask_question q (.terminalStatus s)).answer ≠ [] ∧
     (ask_question q (.terminalStatus s)).summary = pys "Document search error" ∧
     (ask_question q (.terminalStatus s)).source = pys "N/A" ∧
     (ask_question q (.terminalStatus s)).source_citations = []) ∧
    ((ask_question q (.exn msg)).answer = msg ∧
     (ask_question q (.exn msg)).answer ≠ [] ∧
     (ask_question q (.exn msg)).summary = pys "Processing error" ∧
     (ask_question q (.exn msg)).source = pys "N/A" ∧
     (ask_question q (.exn msg)).source_citations = []) := by
  refine ⟨⟨?_, rfl, rfl, rfl⟩, rfl, hmsg, rfl, rfl, rfl⟩
  simp [ask_question, pys]

/-- C7 witness: the amended statement at status `failed` and a non-empty
exception message. -/
theorem claim7_witness :
    (ask_question (pys "Q") (.terminalStatus (pys "failed"))).answer ≠ [] ∧
    (ask_question (pys "Q") (.exn (pys "Rate limit exceeded"))).answer ≠ [] :=
  ⟨(claim7_sentinel_fields (pys "Q") (pys "failed") (pys "Rate limit exceeded")
      (Or.inl rfl) (by decide)).1.1,
   (claim7_sentinel_fields (pys "Q") (pys "failed") (pys "Rate limit exceeded")
      (Or.inl rfl) (by decide)).2.2.1⟩

/-- Attempt oracle of the C2 evidence: the first submit/poll attempt
raises a transient exception; a second attempt would have completed
successfully. -/
def flakyOracle : Nat → RunOutcome := fun n =>
  if n = 0 then .exn (pys "Connection reset by peer")
  else .completedRun (pys "DETAILED ANSWER:\nAll good.\n\nSUMMARY:\nGood.") []

/-- Same first attempt as `flakyOracle` but every later attempt would keep
failing: observationally identical to the code, which never makes a
second attempt. -/
def flakyOracleAlt : Nat → RunOutcome := fun n =>
  if n = 0 then .exn (pys "Connection reset by peer")
  else .terminalStatus (pys "failed")

/-- C2: the source defines `MAX_RETRIES = 3` and `RETRY_DELAY = 5` with
comments announcing a retry policy, but `ask_question` never references
them: its single `try` block consults the environment exactly once, so on
a transient exception it returns the error sentinel after one attempt
even though the very next attempt would have succeeded.  (The sentinel —
rather than a raised exception — does mean a per-question failure cannot
abort the remaining questions.) -/
theorem claim2_no_retry_performed :
    MAX_RETRIES = 3 ∧ RETRY_DELAY = 5 ∧
    flakyOracle 1 = .completedRun (pys "DETAILED ANSWER:\nAll good.\n\nSUMMARY:\nGood.") [] ∧
    ask_question_attempts (pys "Q") flakyOracle =
      ({ question := pys "Q", answer := pys "Connection reset by peer",
         summary := pys "Processing error", source := pys "N/A",
         source_citations := [] }, 1) ∧
    ask_question_attempts (pys "Q") flakyOracleAlt =
      ask_question_attempts (pys "Q") flakyOracle :=
  ⟨rfl, rfl, rfl, rfl, rfl⟩

/-- C8: the claim's own scenario — the upload call for document 2 of 3
raises after its temporary file was written — behaves as specified
(documents 1 and 3 uploaded, no temporary file left, no crash).  But the
`finally` guard `if 'temp_file_path' in locals()` tests a variable that
persists across loop iterations: if document 2's temporary-file WRITE
raises before `temp_file_path` is reassigned, the `finally` block calls
`os.remove` on document 1's already-deleted path, the resulting
`FileNotFoundError` escapes the `except` and aborts the function —
document 3 is never uploaded and document 2's temporary file stays on
disk. -/
theorem claim8_cleanup_bug :
    upload_files_to_vector_store [(1, .ok), (2, .uploadRaises), (3, .ok)] =
      { disk := [], tempVar := some 3, uploaded := [1, 3], crashed := false } ∧
    upload_files_to_vector_store [(1, .ok), (2, .writeRaises), (3, .ok)] =
      { disk := [2], tempVar := some 1, uploaded := [1], crashed := true } := by decide

/-! C6 end-to-end scenario: the category and question lists edited down to
their first 2 entries; question 2's run reports status `failed`, question
1's run completes normally. -/

def questions2 : List PyStr := questionChars.take 2

def categories2 : List PyStr := categoryChars.take 2

def failSecondOracle : Nat → RunOutcome := fun n =>
  if n = 1 then .terminalStatus (pys "failed")
  else .completedRun
    (pys "DETAILED ANSWER:\nThe association is Sunrise Ridge HOA.\n\nSUMMARY:\nSunrise Ridge HOA.") []

def answers2 : List AnswerRecord := ask_questions questions2 failSecondOracle

def summary2 : List SummaryEntry :=
  create_summary_table_gen categories2 questions2 [] answers2

/-- C6 counterexample: in the 2-question, 2-category scenario the answer
list has 2 entries and entry 2's answer contains the substring "failed",
but entry 2's finding in the summary is NOT equal to that failure text:
the loop copies the sentinel's summary field, not its answer field. -/
theorem claim6_counterexample :
    answers2.length = 2 ∧
    containsSub (pys "failed") ((answers2.getD 1 defaultRecord).answer) = true ∧
    summary2.length = 2 ∧
    (summary2.getD 1 defaultEntry).Findings ≠ (answers2.getD 1 defaultRecord).answer := by
  decide

/-- C6 as amended: the answer list has exactly 2 entries, entry 2's answer
is "Search failed: failed" (containing "failed"); the summary list has
exactly 2 entries and entry 2's finding equals the sentinel record's
SUMMARY field, the failure marker "Document search error" — obtained from
the matched failure record, not the no-match placeholder. -/
theorem claim6_amended :
    answers2.length = 2 ∧
    (answers2.getD 1 defaultRecord).answer = pys "Search failed: failed" ∧
    containsSub (pys "failed") ((answers2.getD 1 defaultRecord).answer) = true ∧
    summary2.length = 2 ∧
    (summary2.getD 1 defaultEntry).Findings = (answers2.getD 1 defaultRecord).summary ∧
    (summary2.getD 1 defaultEntry).Findings = pys "Document search error" ∧
    (summary2.getD 1 defaultEntry).Findings ≠ pys "No information found." := by
  decide

/-- C9 matrix fact: the first 50 code points of question `i` are a prefix
of question `j` exactly when `i = j`. -/
theorem question_stem_matrix :
    ∀ i, i < 20 → ∀ j, j < 20 →
      (((questionChars.getD i []).take 50).isPrefixOf (questionChars.getD j [])) =
        decide (i = j) := by decide

/-- C9: the first 50 code points of the 20 question texts are pairwise
distinct, so when the response list carries the questions in their
original order and literal text, `create_summary_table`'s selection pairs
category `i` with exactly the `i`-th answer record. -/
theorem claim9_positional_pairing :
    (questionChars.map (fun q => q.take 50)).Nodup ∧
    ∀ (rs : List AnswerRecord), rs.length = 20 →
      (∀ j, j < 20 → (rs.getD j defaultRecord).question = questionChars.getD j []) →
      ∀ i, i < 20 →
        summary_row questionChars rs (categoryChars.getD i []) i =
          { Category := categoryChars.getD i [],
            Findings := (rs.getD i defaultRecord).summary,
            Source := .citations (rs.getD i defaultRecord).source_citations } := by
  constructor
  · decide
  · intro rs hlen hq i hi
    unfold summary_row
    have hfind : rs.find?
        (fun r => ((questionChars.getD i []).take 50).isPrefixOf r.question) =
        some (rs.getD i defaultRecord) := by
      refine find?_of_getD _ _ rs i (by omega) ?_ ?_
      · intro j hj
        show ((questionChars.getD i []).take 50).isPrefixOf
          (rs.getD j defaultRecord).question = false
        rw [hq j (by omega), question_stem_matrix i hi j (by omega)]
        simp only [decide_eq_false_iff_not]
        omega
      · show ((questionChars.getD i []).take 50).isPrefixOf
          (rs.getD i defaultRecord).question = true
        rw [hq i hi, question_stem_matrix i hi i hi]
        simp
    rw [hfind]

/-- C9 witness: the response list built from the questions in order, each
with a marker summary; category 0 is paired with record 0. -/
def orderedResponses : List AnswerRecord :=
  questionChars.map (fun q =>
    { question := q, answer := [], summary := pys "marker",
      source := [], source_citations := [] })

theorem claim9_witness :
    orderedResponses.length = 20 ∧
    summary_row questionChars orderedResponses (categoryChars.getD 0 []) 0 =
      { Category := categoryChars.getD 0 [],
        Findings := (orderedResponses.getD 0 defaultRecord).summary,
        Source := .citations (orderedResponses.getD 0 defaultRecord).source_citations } :=
  ⟨by decide,
   claim9_positional_pairing.2 orderedResponses (by decide) (by decide) 0 (by decide)⟩

end HoaAgent
